import Mathlib

/-!
Shallow embedding of the hydraulic calculation engine of the
Centrifugal Pump Sizing App (`src/pump_sizer.py`), together with proofs
about the properties its specification states.

Python floats are modelled as real numbers; the one genuinely
infinite value the engine produces (`float('inf')`, from a zero
viscosity or a non-positive efficiency) is modelled with `EReal`'s `⊤`.
A second, "checked" embedding returns `Option` values, with `none`
marking the places where the Python code would raise an exception
(`ZeroDivisionError`, `KeyError`, a `math.log10` domain error, or a
complex result from `**` on a negative base); it is used to settle the
totality claims.
-/

open scoped Classical

noncomputable section

namespace PumpApp

/-- Constant `PumpSizer.GRAVITY` from the source. -/
def GRAVITY : ℝ := 9.81

/-- Dict `PumpSizer.PIPE_ROUGHNESS`: the material → absolute-roughness dict;
`none` models a key that is absent from the dict. -/
def PIPE_ROUGHNESS (material : String) : Option ℝ :=
  if material = "stainless_steel" then some 2e-06
  else if material = "commercial_steel" then some 4.5e-05
  else if material = "pvc" then some 1.5e-06
  else if material = "cast_iron" then some 0.00026
  else if material = "hdpe" then some 1.5e-06
  else none

/-- Dict `PumpSizer.FITTINGS_K_VALUES`: the fitting-name → K-value dict;
`none` models a key that is absent from the dict. -/
def FITTINGS_K_VALUES (fitting : String) : Option ℝ :=
  if fitting = "elbow_90_std" then some 0.9
  else if fitting = "elbow_90_long_radius" then some 0.6
  else if fitting = "elbow_45_std" then some 0.4
  else if fitting = "gate_valve_fully_open" then some 0.2
  else if fitting = "ball_valve_fully_open" then some 0.1
  else if fitting = "globe_valve_fully_open" then some 10.0
  else if fitting = "check_valve_swing" then some 2.5
  else if fitting = "tee_through_flow" then some 0.6
  else if fitting = "tee_branch_flow" then some 1.8
  else if fitting = "pipe_entrance_sharp" then some 0.5
  else if fitting = "pipe_exit_sharp" then some 1.0
  else none

/-- The 11 keys of `FITTINGS_K_VALUES`. -/
def FITTING_NAMES : List String :=
  ["elbow_90_std", "elbow_90_long_radius", "elbow_45_std",
   "gate_valve_fully_open", "ball_valve_fully_open", "globe_valve_fully_open",
   "check_valve_swing", "tee_through_flow", "tee_branch_flow",
   "pipe_entrance_sharp", "pipe_exit_sharp"]

/-- Table `PumpSizer.STANDARD_MOTOR_KW`. -/
def STANDARD_MOTOR_KW : List ℝ :=
  [0.37, 0.55, 0.75, 1.1, 1.5, 2.2, 3, 4, 5.5, 7.5, 11, 15, 18.5, 22,
   30, 37, 45, 55, 75, 90, 110, 132, 160, 200, 250]

/-- The state built by `PumpSizer.__init__`. -/
structure PumpSizer where
  flow_rate_m3_s : ℝ
  density : ℝ
  viscosity_Pa_s : ℝ

/-- Constructor `PumpSizer.__init__(flow_rate_m3_hr, fluid_density_kg_m3, fluid_viscosity_cP)`. -/
def PumpSizer.init (flow_rate_m3_hr fluid_density_kg_m3 fluid_viscosity_cP : ℝ) :
    PumpSizer where
  flow_rate_m3_s := flow_rate_m3_hr / 3600
  density := if fluid_density_kg_m3 > 0 then fluid_density_kg_m3 else 1
  viscosity_Pa_s := fluid_viscosity_cP / 1000

/-- Method `PumpSizer._calculate_velocity` (leading underscore dropped). -/
def PumpSizer.calculate_velocity (ps : PumpSizer) (pipe_dia_mm : ℝ) : ℝ :=
  let pipe_dia_m := pipe_dia_mm / 1000
  if pipe_dia_m = 0 then 0
  else
    let area := Real.pi * pipe_dia_m ^ 2 / 4
    ps.flow_rate_m3_s / area

/-- Method `PumpSizer._calculate_reynolds`; `float('inf')` is modelled as `⊤ : EReal`. -/
def PumpSizer.calculate_reynolds (ps : PumpSizer) (velocity pipe_dia_mm : ℝ) : EReal :=
  let pipe_dia_m := pipe_dia_mm / 1000
  if ps.viscosity_Pa_s = 0 then ⊤
  else (((ps.density * velocity * pipe_dia_m) / ps.viscosity_Pa_s : ℝ) : EReal)

/-- Method `PumpSizer._calculate_friction_factor`.  The Reynolds argument is an
`EReal` because the source can pass `float('inf')` into it; on that value
Python evaluates `5.74 / inf ** 0.9` to `0.0`, which is what the
`reynolds = ⊤` case of `term2` encodes. -/
def PumpSizer.calculate_friction_factor (reynolds : EReal) (pipe_dia_mm : ℝ)
    (pipe_material : String) : ℝ :=
  if reynolds < ((2300 : ℝ) : EReal) then
    (if ((0 : ℝ) : EReal) < reynolds then 64 / reynolds.toReal else 0)
  else
    let pipe_dia_m := pipe_dia_mm / 1000
    let epsilon := (PIPE_ROUGHNESS pipe_material).getD 4.5e-05
    if pipe_dia_m = 0 then 0
    else
      let term1 := epsilon / (3.7 * pipe_dia_m)
      let term2 := if reynolds = ⊤ then 0 else 5.74 / reynolds.toReal ^ (0.9 : ℝ)
      if term1 + term2 ≤ 0 then 0
      else
        let log_term := Real.logb 10 (term1 + term2)
        0.25 / log_term ^ 2

/-- The generator-sum `total_k = sum(FITTINGS_K_VALUES[key] * count ... if count > 0)`
shared by `calculate_tdh` and `calculate_npsha`.  A fittings dict is modelled
as an association list; in this unchecked embedding an unknown key contributes
`0` (the checked embedding below models the `KeyError` instead). -/
def total_k (fittings : List (String × ℝ)) : ℝ :=
  (fittings.map (fun kv => if kv.2 > 0 then (FITTINGS_K_VALUES kv.1).getD 0 * kv.2 else 0)).sum

/-- The entries `calculate_tdh` writes into `self.results`. -/
structure TdhResult where
  tdh_m : ℝ
  static_head_m : ℝ
  pressure_head_m : ℝ
  friction_head_m : ℝ
  velocity_m_s : ℝ
  reynolds_number : EReal

/-- Method `PumpSizer.calculate_tdh`.  Note that, exactly as in the source, the
`suction_pipe_dia_mm` argument is accepted but never used: velocity,
Reynolds number and friction factor all come from the discharge diameter. -/
def PumpSizer.calculate_tdh (ps : PumpSizer)
    (suction_pipe_dia_mm discharge_pipe_dia_mm total_pipe_length_m : ℝ)
    (pipe_material : String) (fittings : List (String × ℝ))
    (elevation_change_m source_pressure_kpa_g dest_pressure_kpa_g : ℝ) : TdhResult :=
  let static_head := elevation_change_m
  let pressure_head := ((dest_pressure_kpa_g - source_pressure_kpa_g) * 1000) /
    (ps.density * GRAVITY)
  let velocity := ps.calculate_velocity discharge_pipe_dia_mm
  let reynolds := ps.calculate_reynolds velocity discharge_pipe_dia_mm
  let friction_factor :=
    PumpSizer.calculate_friction_factor reynolds discharge_pipe_dia_mm pipe_material
  let pipe_dia_m := discharge_pipe_dia_mm / 1000
  let pipe_head_loss :=
    if pipe_dia_m > 0 then
      friction_factor * (total_pipe_length_m / pipe_dia_m) * (velocity ^ 2 / (2 * GRAVITY))
    else 0
  let fittings_head_loss := total_k fittings * (velocity ^ 2 / (2 * GRAVITY))
  let friction_head := pipe_head_loss + fittings_head_loss
  let tdh := static_head + pressure_head + friction_head
  { tdh_m := tdh, static_head_m := static_head, pressure_head_m := pressure_head,
    friction_head_m := friction_head, velocity_m_s := velocity,
    reynolds_number := reynolds }

/-- Division of a power value that is either finite or `float('inf')` by a
finite float; matches Python semantics on the values the engine reaches
(a positive divisor, so `inf / c = inf`). -/
def divFin (x : EReal) (c : ℝ) : EReal :=
  if x = ⊤ then ⊤ else ((x.toReal / c : ℝ) : EReal)

/-- The generator of
`next((size for size in STANDARD_MOTOR_KW if size >= motor_power_kW), ...)`:
first list entry `≥ motor_power_kW`, if any. -/
def firstGE (motor_power_kW : EReal) : List ℝ → Option ℝ
  | [] => none
  | size :: rest =>
    if motor_power_kW ≤ (size : EReal) then some size else firstGE motor_power_kW rest

/-- The `next(...)` call of `calculate_power`, with its
`STANDARD_MOTOR_KW[-1]` fallback. -/
def recommended_motor (motor_power_kW : EReal) : ℝ :=
  (firstGE motor_power_kW STANDARD_MOTOR_KW).getD (STANDARD_MOTOR_KW.getLastD 0)

/-- The entries `calculate_power` writes into `self.results`. -/
structure PowerResult where
  hydraulic_power_kW : EReal
  brake_horsepower_kW : EReal
  motor_power_required_kW : EReal
  recommended_motor_kW : ℝ

/-- Method `PumpSizer.calculate_power`.  The stored `hydraulic_power_kW` entry is
translated exactly as the source writes it:
`motor_power_W / 1000.0 / motor_efficiency if motor_efficiency > 0 else inf`. -/
def PumpSizer.calculate_power (ps : PumpSizer) (tdh_m : ℝ)
    (pump_efficiency motor_efficiency : ℝ) : PowerResult :=
  let hydraulic_power_W : ℝ := ps.flow_rate_m3_s * ps.density * GRAVITY * tdh_m
  let bhp_W : EReal :=
    if pump_efficiency > 0 then ((hydraulic_power_W / pump_efficiency : ℝ) : EReal) else ⊤
  let motor_power_W : EReal :=
    if motor_efficiency > 0 then divFin bhp_W motor_efficiency else ⊤
  let motor_power_kW : EReal := divFin motor_power_W 1000
  { hydraulic_power_kW :=
      if motor_efficiency > 0 then divFin (divFin motor_power_W 1000) motor_efficiency else ⊤
    brake_horsepower_kW := divFin bhp_W 1000
    motor_power_required_kW := motor_power_kW
    recommended_motor_kW := recommended_motor motor_power_kW }

/-- Method `PumpSizer.calculate_npsha`. -/
def PumpSizer.calculate_npsha (ps : PumpSizer)
    (suction_pipe_dia_mm suction_pipe_length_m : ℝ) (suction_pipe_material : String)
    (suction_fittings : List (String × ℝ))
    (liquid_level_above_suction_m suction_vessel_pressure_kpa_g
      liquid_vapor_pressure_kpa_abs : ℝ) : ℝ :=
  let pressure_head_at_source :=
    ((suction_vessel_pressure_kpa_g * 1000) + 101325) / (ps.density * GRAVITY)
  let vapor_pressure_head :=
    (liquid_vapor_pressure_kpa_abs * 1000) / (ps.density * GRAVITY)
  let velocity := ps.calculate_velocity suction_pipe_dia_mm
  let reynolds := ps.calculate_reynolds velocity suction_pipe_dia_mm
  let friction_factor :=
    PumpSizer.calculate_friction_factor reynolds suction_pipe_dia_mm suction_pipe_material
  let pipe_dia_m := suction_pipe_dia_mm / 1000
  let pipe_loss :=
    if pipe_dia_m > 0 then
      friction_factor * (suction_pipe_length_m / pipe_dia_m) * (velocity ^ 2 / (2 * GRAVITY))
    else 0
  let fittings_loss := total_k suction_fittings * (velocity ^ 2 / (2 * GRAVITY))
  let total_suction_friction_head := pipe_loss + fittings_loss
  pressure_head_at_source + liquid_level_above_suction_m - vapor_pressure_head -
    total_suction_friction_head

/-- The inputs the Streamlit form hands to the engine on a button click. -/
structure AppInputs where
  flow_rate : ℝ
  density : ℝ
  viscosity : ℝ
  vapor_pressure : ℝ
  source_pressure : ℝ
  dest_pressure : ℝ
  elevation_change : ℝ
  pipe_material : String
  suction_pipe_dia : ℝ
  suction_pipe_len : ℝ
  discharge_pipe_dia : ℝ
  discharge_pipe_len : ℝ
  liquid_level : ℝ
  pump_eff : ℝ
  motor_eff : ℝ
  fittings_total : List (String × ℝ)
  fittings_suction : List (String × ℝ)

/-- The results the button-click handler collects. -/
structure AppResults where
  tdh : TdhResult
  power : PowerResult
  npsha_m : ℝ

/-- The button-click pipeline of the app: build the `PumpSizer`, run
`calculate_tdh` (with `total_pipe_len = suction_pipe_len + discharge_pipe_len`),
feed its TDH into `calculate_power`, then run `calculate_npsha` on the
suction-side inputs. -/
def runApp (i : AppInputs) : AppResults :=
  let pump_calc := PumpSizer.init i.flow_rate i.density i.viscosity
  let total_pipe_len := i.suction_pipe_len + i.discharge_pipe_len
  let tdhR := pump_calc.calculate_tdh i.suction_pipe_dia i.discharge_pipe_dia total_pipe_len
    i.pipe_material i.fittings_total i.elevation_change i.source_pressure i.dest_pressure
  let powerR := pump_calc.calculate_power tdhR.tdh_m i.pump_eff i.motor_eff
  let npsha := pump_calc.calculate_npsha i.suction_pipe_dia i.suction_pipe_len
    i.pipe_material i.fittings_suction i.liquid_level i.source_pressure i.vapor_pressure
  { tdh := tdhR, power := powerR, npsha_m := npsha }

/-!
### Checked embedding

The same engine, but with every operation that can raise a Python
exception made explicit: `none` is an exception.  Divisions whose divisor
is a nonzero numeric literal of the source (`/ 1000`, `/ 3600`, `/ 4`,
`/ (2 * GRAVITY)`) cannot raise and stay plain.
-/

/-- Checked float division: `none` is Python's `ZeroDivisionError`. -/
def odiv (x y : ℝ) : Option ℝ := if y = 0 then none else some (x / y)

/-- Checked `math.log10`: `none` is the `ValueError` raised on a
non-positive argument. -/
def olog10 (x : ℝ) : Option ℝ := if x ≤ 0 then none else some (Real.logb 10 x)

/-- Checked `x ** y` for float exponents: on a negative base Python's `**`
produces a complex number, which the surrounding real-valued arithmetic
cannot consume (`math.log10` would raise a `TypeError`), so it is treated
as a failure. -/
def orpow (x y : ℝ) : Option ℝ := if x < 0 then none else some (x ^ y)

/-- Checked `PumpSizer._calculate_velocity`. -/
def PumpSizer.calculate_velocity_checked (ps : PumpSizer) (pipe_dia_mm : ℝ) : Option ℝ :=
  let pipe_dia_m := pipe_dia_mm / 1000
  if pipe_dia_m = 0 then some 0
  else odiv ps.flow_rate_m3_s (Real.pi * pipe_dia_m ^ 2 / 4)

/-- Checked `PumpSizer._calculate_reynolds`. -/
def PumpSizer.calculate_reynolds_checked (ps : PumpSizer) (velocity pipe_dia_mm : ℝ) :
    Option EReal :=
  let pipe_dia_m := pipe_dia_mm / 1000
  if ps.viscosity_Pa_s = 0 then some ⊤
  else (odiv (ps.density * velocity * pipe_dia_m) ps.viscosity_Pa_s).map
    (fun x => (x : EReal))

/-- Checked `PumpSizer._calculate_friction_factor`. -/
def PumpSizer.calculate_friction_factor_checked (reynolds : EReal) (pipe_dia_mm : ℝ)
    (pipe_material : String) : Option ℝ :=
  if reynolds < ((2300 : ℝ) : EReal) then
    (if ((0 : ℝ) : EReal) < reynolds then odiv 64 reynolds.toReal else some 0)
  else
    let pipe_dia_m := pipe_dia_mm / 1000
    let epsilon := (PIPE_ROUGHNESS pipe_material).getD 4.5e-05
    if pipe_dia_m = 0 then some 0
    else
      (odiv epsilon (3.7 * pipe_dia_m)).bind fun term1 =>
      (if reynolds = ⊤ then some 0
       else (orpow reynolds.toReal 0.9).bind fun p => odiv 5.74 p).bind fun term2 =>
      if term1 + term2 ≤ 0 then some 0
      else (olog10 (term1 + term2)).bind fun log_term => odiv 0.25 (log_term ^ 2)

/-- Checked `total_k` sum: `none` is the `KeyError` raised by
`FITTINGS_K_VALUES[key]` when a key with positive count is unknown. -/
def total_k_checked : List (String × ℝ) → Option ℝ
  | [] => some 0
  | (key, count) :: rest =>
    if count > 0 then
      (FITTINGS_K_VALUES key).bind fun kv =>
        (total_k_checked rest).map fun s => kv * count + s
    else total_k_checked rest

/-- Checked `PumpSizer.calculate_tdh`. -/
def PumpSizer.calculate_tdh_checked (ps : PumpSizer)
    (suction_pipe_dia_mm discharge_pipe_dia_mm total_pipe_length_m : ℝ)
    (pipe_material : String) (fittings : List (String × ℝ))
    (elevation_change_m source_pressure_kpa_g dest_pressure_kpa_g : ℝ) : Option TdhResult :=
  let static_head := elevation_change_m
  (odiv ((dest_pressure_kpa_g - source_pressure_kpa_g) * 1000) (ps.density * GRAVITY)).bind
    fun pressure_head =>
  (ps.calculate_velocity_checked discharge_pipe_dia_mm).bind fun velocity =>
  (ps.calculate_reynolds_checked velocity discharge_pipe_dia_mm).bind fun reynolds =>
  (PumpSizer.calculate_friction_factor_checked reynolds discharge_pipe_dia_mm
      pipe_material).bind fun friction_factor =>
  let pipe_dia_m := discharge_pipe_dia_mm / 1000
  (if pipe_dia_m > 0 then
      (odiv total_pipe_length_m pipe_dia_m).map fun r =>
        friction_factor * r * (velocity ^ 2 / (2 * GRAVITY))
    else some 0).bind fun pipe_head_loss =>
  (total_k_checked fittings).bind fun tk =>
  let fittings_head_loss := tk * (velocity ^ 2 / (2 * GRAVITY))
  let friction_head := pipe_head_loss + fittings_head_loss
  some { tdh_m := static_head + pressure_head + friction_head,
         static_head_m := static_head, pressure_head_m := pressure_head,
         friction_head_m := friction_head, velocity_m_s := velocity,
         reynolds_number := reynolds }

/-- Checked `divFin`. -/
def divFinChecked (x : EReal) (c : ℝ) : Option EReal :=
  if x = ⊤ then some ⊤ else (odiv x.toReal c).map (fun r => (r : EReal))

/-- Checked `PumpSizer.calculate_power`. -/
def PumpSizer.calculate_power_checked (ps : PumpSizer) (tdh_m : ℝ)
    (pump_efficiency motor_efficiency : ℝ) : Option PowerResult :=
  let hydraulic_power_W : ℝ := ps.flow_rate_m3_s * ps.density * GRAVITY * tdh_m
  (if pump_efficiency > 0 then
      (odiv hydraulic_power_W pump_efficiency).map (fun r => (r : EReal))
    else some ⊤).bind fun bhp_W =>
  (if motor_efficiency > 0 then divFinChecked bhp_W motor_efficiency
    else some ⊤).bind fun motor_power_W =>
  let motor_power_kW := divFin motor_power_W 1000
  (if motor_efficiency > 0 then divFinChecked (divFin motor_power_W 1000) motor_efficiency
    else some ⊤).bind fun hyd_entry =>
  some { hydraulic_power_kW := hyd_entry,
         brake_horsepower_kW := divFin bhp_W 1000,
         motor_power_required_kW := motor_power_kW,
         recommended_motor_kW := recommended_motor motor_power_kW }

/-- Checked `PumpSizer.calculate_npsha`. -/
def PumpSizer.calculate_npsha_checked (ps : PumpSizer)
    (suction_pipe_dia_mm suction_pipe_length_m : ℝ) (suction_pipe_material : String)
    (suction_fittings : List (String × ℝ))
    (liquid_level_above_suction_m suction_vessel_pressure_kpa_g
      liquid_vapor_pressure_kpa_abs : ℝ) : Option ℝ :=
  (odiv ((suction_vessel_pressure_kpa_g * 1000) + 101325) (ps.density * GRAVITY)).bind
    fun pressure_head_at_source =>
  (odiv (liquid_vapor_pressure_kpa_abs * 1000) (ps.density * GRAVITY)).bind
    fun vapor_pressure_head =>
  (ps.calculate_velocity_checked suction_pipe_dia_mm).bind fun velocity =>
  (ps.calculate_reynolds_checked velocity suction_pipe_dia_mm).bind fun reynolds =>
  (PumpSizer.calculate_friction_factor_checked reynolds suction_pipe_dia_mm
      suction_pipe_material).bind fun friction_factor =>
  let pipe_dia_m := suction_pipe_dia_mm / 1000
  (if pipe_dia_m > 0 then
      (odiv suction_pipe_length_m pipe_dia_m).map fun r =>
        friction_factor * r * (velocity ^ 2 / (2 * GRAVITY))
    else some 0).bind fun pipe_loss =>
  (total_k_checked suction_fittings).bind fun tk =>
  let fittings_loss := tk * (velocity ^ 2 / (2 * GRAVITY))
  some (pressure_head_at_source + liquid_level_above_suction_m - vapor_pressure_head -
    (pipe_loss + fittings_loss))

/-- The Swamee–Jain logarithm argument of the turbulent branch, as a plain
real expression; the friction factor computation raises iff it reaches the
final division with this argument equal to `1`. -/
def sjArg (reynolds : EReal) (pipe_dia_mm : ℝ) (pipe_material : String) : ℝ :=
  (PIPE_ROUGHNESS pipe_material).getD 4.5e-05 / (3.7 * (pipe_dia_mm / 1000)) +
    (if reynolds = ⊤ then 0 else 5.74 / reynolds.toReal ^ (0.9 : ℝ))

/-!
### Claim theorems
-/

/-- C2: for every input set, `calculate_tdh` returns
`static_head + pressure_head + friction_head`, where `static_head` is the
signed elevation change, `pressure_head` is `(dest − source)` converted from
kPa to Pa and divided by `ρ·9.81`, and `friction_head` is the pipe head loss
`f·(L_total/d)·(v²/(2g))` (with the source's `d ≤ 0 → 0` guard) plus the
fittings head loss — velocity, Reynolds number and friction factor all
computed from the discharge pipe diameter only, while the pipe-loss term
uses the total (suction plus discharge) pipe length. -/
theorem tdh_is_static_plus_pressure_plus_friction (ps : PumpSizer)
    (sd dd L : ℝ) (mat : String) (fits : List (String × ℝ)) (elev src dst : ℝ) :
    (ps.calculate_tdh sd dd L mat fits elev src dst).tdh_m =
        (ps.calculate_tdh sd dd L mat fits elev src dst).static_head_m +
        (ps.calculate_tdh sd dd L mat fits elev src dst).pressure_head_m +
        (ps.calculate_tdh sd dd L mat fits elev src dst).friction_head_m ∧
      (ps.calculate_tdh sd dd L mat fits elev src dst).static_head_m = elev ∧
      (ps.calculate_tdh sd dd L mat fits elev src dst).pressure_head_m =
        (dst - src) * 1000 / (ps.density * 9.81) ∧
      (ps.calculate_tdh sd dd L mat fits elev src dst).friction_head_m =
        (if 0 < dd / 1000 then
            PumpSizer.calculate_friction_factor
                (ps.calculate_reynolds (ps.calculate_velocity dd) dd) dd mat *
              (L / (dd / 1000)) * (ps.calculate_velocity dd ^ 2 / (2 * 9.81))
          else 0) +
          total_k fits * (ps.calculate_velocity dd ^ 2 / (2 * 9.81)) := by
  refine ⟨rfl, rfl, rfl, ?_⟩
  simp only [PumpSizer.calculate_tdh, GRAVITY, gt_iff_lt]

/-- C3: for every suction-side input set with positive suction diameter and
positive density, `calculate_npsha` returns
`(gauge pressure in Pa + 101325)/(ρ·9.81) + liquid level − vapor pressure in
Pa/(ρ·9.81) − suction friction head`, the friction head being computed from
the suction pipe diameter, suction pipe length and suction-only fittings
exclusively. -/
theorem npsha_formula (ps : PumpSizer) (sd sl : ℝ) (mat : String)
    (fits : List (String × ℝ)) (lvl pg vp : ℝ)
    (hd : 0 < sd) (hρ : 0 < ps.density) :
    ps.calculate_npsha sd sl mat fits lvl pg vp =
      (pg * 1000 + 101325) / (ps.density * 9.81) + lvl -
        vp * 1000 / (ps.density * 9.81) -
        (PumpSizer.calculate_friction_factor
              (ps.calculate_reynolds (ps.calculate_velocity sd) sd) sd mat *
            (sl / (sd / 1000)) * (ps.calculate_velocity sd ^ 2 / (2 * 9.81)) +
          total_k fits * (ps.calculate_velocity sd ^ 2 / (2 * 9.81))) := by
  have hdm : (0 : ℝ) < sd / 1000 := by positivity
  simp only [PumpSizer.calculate_npsha, GRAVITY, gt_iff_lt, if_pos hdm]

/-- Witness for C3 at a concrete input. -/
theorem npsha_formula_witness :
    (0 : ℝ) < 100 ∧ 0 < (PumpSizer.init 50 998.2 1).density ∧
      (PumpSizer.init 50 998.2 1).calculate_npsha 100 10 "stainless_steel" [] 2 0 2.3 =
        ((0 : ℝ) * 1000 + 101325) / ((PumpSizer.init 50 998.2 1).density * 9.81) + 2 -
          (2.3 : ℝ) * 1000 / ((PumpSizer.init 50 998.2 1).density * 9.81) -
          (PumpSizer.calculate_friction_factor
                ((PumpSizer.init 50 998.2 1).calculate_reynolds
                  ((PumpSizer.init 50 998.2 1).calculate_velocity 100) 100) 100
                "stainless_steel" *
              ((10 : ℝ) / (100 / 1000)) *
              ((PumpSizer.init 50 998.2 1).calculate_velocity 100 ^ 2 / (2 * 9.81)) +
            total_k [] *
              ((PumpSizer.init 50 998.2 1).calculate_velocity 100 ^ 2 / (2 * 9.81))) :=
  ⟨by norm_num, by norm_num [PumpSizer.init],
    npsha_formula (PumpSizer.init 50 998.2 1) 100 10 "stainless_steel" [] 2 0 2.3
      (by norm_num) (by norm_num [PumpSizer.init])⟩

/-- Applying `divFin` to a finite value is plain division. -/
theorem divFin_coe (x c : ℝ) : divFin (x : EReal) c = ((x / c : ℝ) : EReal) := by
  simp [divFin, EReal.coe_ne_top]

/-- Helper: `divFin` propagates `inf`. -/
theorem divFin_top (c : ℝ) : divFin ⊤ c = ⊤ := by
  simp [divFin]

/-- No standard motor size is `≥ inf`. -/
theorem firstGE_top (l : List ℝ) : firstGE ⊤ l = none := by
  induction l with
  | nil => rfl
  | cons s rest ih => simp [firstGE, top_le_iff, EReal.coe_ne_top, ih]

/-- An infinite power demand falls through to the table fallback. -/
theorem recommended_motor_top : recommended_motor ⊤ = 250 := by
  rw [recommended_motor, firstGE_top]
  rfl

/-- Helper: `firstGE` returns `none` exactly when no entry qualifies. -/
theorem firstGE_eq_none_iff (mp : EReal) (l : List ℝ) :
    firstGE mp l = none ↔ ∀ s ∈ l, ¬ mp ≤ (s : EReal) := by
  induction l with
  | nil => simp [firstGE]
  | cons s rest ih =>
    by_cases h : mp ≤ (s : EReal)
    · simp [firstGE, h]
    · rw [firstGE, if_neg h, ih]
      constructor
      · intro hall t ht
        rcases List.mem_cons.mp ht with rfl | ht2
        · exact h
        · exact hall t ht2
      · intro hall t ht
        exact hall t (List.mem_cons_of_mem _ ht)

/-- A value returned by `firstGE` is a qualifying table entry. -/
theorem firstGE_some (mp : EReal) (l : List ℝ) (r : ℝ) (h : firstGE mp l = some r) :
    r ∈ l ∧ mp ≤ (r : EReal) := by
  induction l with
  | nil => exact absurd h (by simp [firstGE])
  | cons s rest ih =>
    by_cases hs : mp ≤ (s : EReal)
    · rw [firstGE, if_pos hs] at h
      cases h
      exact ⟨List.mem_cons_self _ _, hs⟩
    · rw [firstGE, if_neg hs] at h
      rcases ih h with ⟨h1, h2⟩
      exact ⟨List.mem_cons_of_mem _ h1, h2⟩

/-- On a sorted list, the first qualifying entry is the least qualifying
entry. -/
theorem firstGE_min (mp : EReal) (l : List ℝ) (hsort : l.Sorted (· ≤ ·)) (r : ℝ)
    (h : firstGE mp l = some r) : ∀ s ∈ l, mp ≤ (s : EReal) → r ≤ s := by
  induction l with
  | nil => exact absurd h (by simp [firstGE])
  | cons a rest ih =>
    rw [List.sorted_cons] at hsort
    intro s hs hms
    by_cases ha : mp ≤ (a : EReal)
    · rw [firstGE, if_pos ha] at h
      cases h
      rcases List.mem_cons.mp hs with rfl | hs2
      · exact le_refl _
      · exact hsort.1 s hs2
    · rw [firstGE, if_neg ha] at h
      rcases List.mem_cons.mp hs with rfl | hs2
      · exact absurd hms ha
      · exact ih hsort.2 h s hs2 hms

/-- The motor table is strictly ascending. -/
theorem motor_table_ascending : List.Chain' (· < ·) STANDARD_MOTOR_KW := by
  norm_num [STANDARD_MOTOR_KW, List.chain'_cons]

/-- The motor table is sorted. -/
theorem motor_table_sorted : List.Sorted (· ≤ ·) STANDARD_MOTOR_KW :=
  (List.chain'_iff_pairwise.mp motor_table_ascending).imp le_of_lt

/-- Every motor table entry is at most 250. -/
theorem motor_table_le : ∀ s ∈ STANDARD_MOTOR_KW, s ≤ 250 := by
  intro s hs
  fin_cases hs <;> norm_num

/-- 250 is a motor table entry. -/
theorem motor_table_mem_250 : (250 : ℝ) ∈ STANDARD_MOTOR_KW := by
  norm_num [STANDARD_MOTOR_KW]

/-- C1 (code bug evidence): at flow 3600 m³/hr (1 m³/s), density 1000,
tdh 1 m, pump efficiency 0.5, motor efficiency 0.5, the result record's
`hydraulic_power_kW` entry is 78.48 — the source stores
`motor_power_W / 1000 / motor_efficiency` there — while the hydraulic power
`Q·ρ·g·tdh/1000` the claim and spec prescribe is 9.81 kW; the
`brake_horsepower_kW` (19.62) and `motor_power_required_kW` (39.24) entries
do match the claim. -/
theorem power_hydraulic_field_diverges :
    ((PumpSizer.init 3600 1000 1).calculate_power 1 (1 / 2) (1 / 2)).hydraulic_power_kW =
        ((78.48 : ℝ) : EReal) ∧
      ((PumpSizer.init 3600 1000 1).calculate_power 1 (1 / 2) (1 / 2)).brake_horsepower_kW =
        ((19.62 : ℝ) : EReal) ∧
      ((PumpSizer.init 3600 1000 1).calculate_power 1 (1 / 2)
            (1 / 2)).motor_power_required_kW = ((39.24 : ℝ) : EReal) ∧
      (PumpSizer.init 3600 1000 1).flow_rate_m3_s * (PumpSizer.init 3600 1000 1).density *
          GRAVITY * 1 / 1000 = (9.81 : ℝ) ∧
      ((78.48 : ℝ) : EReal) ≠ ((9.81 : ℝ) : EReal) := by
  refine ⟨?_, ?_, ?_, ?_, ?_⟩ <;>
    norm_num [PumpSizer.calculate_power, PumpSizer.init, GRAVITY, divFin_coe,
      EReal.coe_eq_coe_iff]

/-- C8: a non-positive pump or motor efficiency makes
`motor_power_required_kW` the positive-infinity sentinel, and the
recommended motor falls back to the table's last entry, 250. -/
theorem power_nonpositive_efficiency (ps : PumpSizer) (tdh pe me : ℝ)
    (h : pe ≤ 0 ∨ me ≤ 0) :
    (ps.calculate_power tdh pe me).motor_power_required_kW = ⊤ ∧
      (ps.calculate_power tdh pe me).recommended_motor_kW = 250 := by
  have hW : (if me > 0 then
      divFin (if pe > 0 then
          (((ps.flow_rate_m3_s * ps.density * GRAVITY * tdh) / pe : ℝ) : EReal) else ⊤) me
    else ⊤) = (⊤ : EReal) := by
    rcases h with h | h
    · rw [if_neg (not_lt.mpr h)]
      split
      · exact divFin_top me
      · rfl
    · rw [if_neg (not_lt.mpr h)]
  simp only [PumpSizer.calculate_power, hW, divFin_top]
  exact ⟨trivial, recommended_motor_top⟩

/-- Witness for C8 at a concrete input. -/
theorem power_nonpositive_efficiency_witness :
    ((0.75 : ℝ) ≤ 0 ∨ (0 : ℝ) ≤ 0) ∧
      ((PumpSizer.init 50 1000 1).calculate_power 10 0.75 0).motor_power_required_kW = ⊤ ∧
      ((PumpSizer.init 50 1000 1).calculate_power 10 0.75 0).recommended_motor_kW = 250 :=
  ⟨Or.inr (by norm_num),
    (power_nonpositive_efficiency (PumpSizer.init 50 1000 1) 10 0.75 0
      (Or.inr (by norm_num))).1,
    (power_nonpositive_efficiency (PumpSizer.init 50 1000 1) 10 0.75 0
      (Or.inr (by norm_num))).2⟩

/-- C5: the motor table has 25 strictly ascending entries; for every demand
not above 250 the recommendation is the least (hence first) table entry
`≥` the demand; when every entry is below the demand the table's largest
entry is returned; in particular 5.0 → 5.5 and 999 → 250. -/
theorem motor_selection :
    STANDARD_MOTOR_KW.length = 25 ∧
      List.Chain' (· < ·) STANDARD_MOTOR_KW ∧
      (∀ mp : ℝ,
        (mp ≤ 250 →
          recommended_motor (mp : EReal) ∈ STANDARD_MOTOR_KW ∧
            mp ≤ recommended_motor (mp : EReal) ∧
            ∀ s ∈ STANDARD_MOTOR_KW, mp ≤ s → recommended_motor (mp : EReal) ≤ s) ∧
        ((∀ s ∈ STANDARD_MOTOR_KW, s < mp) → recommended_motor (mp : EReal) = 250)) ∧
      recommended_motor ((5 : ℝ) : EReal) = 5.5 ∧
      recommended_motor ((999 : ℝ) : EReal) = 250 := by
  refine ⟨by norm_num [STANDARD_MOTOR_KW], motor_table_ascending, ?_, ?_, ?_⟩
  · intro mp
    constructor
    · intro hmp
      cases hfind : firstGE (mp : EReal) STANDARD_MOTOR_KW with
      | none =>
        exact absurd ((firstGE_eq_none_iff _ _).mp hfind 250 motor_table_mem_250)
          (by simpa [EReal.coe_le_coe_iff] using hmp)
      | some r =>
        have hrm := firstGE_some _ _ _ hfind
        have hrec : recommended_motor (mp : EReal) = r := by
          rw [recommended_motor, hfind]
          rfl
        refine ⟨hrec ▸ hrm.1, ?_, ?_⟩
        · rw [hrec]
          exact EReal.coe_le_coe_iff.mp hrm.2
        · intro s hs hms
          rw [hrec]
          exact firstGE_min _ _ motor_table_sorted _ hfind s hs
            (EReal.coe_le_coe_iff.mpr hms)
    · intro hall
      have hnone : firstGE (mp : EReal) STANDARD_MOTOR_KW = none :=
        (firstGE_eq_none_iff _ _).mpr fun s hs =>
          by simpa [EReal.coe_le_coe_iff] using not_le.mpr (hall s hs)
      rw [recommended_motor, hnone]
      rfl
  · norm_num [recommended_motor, STANDARD_MOTOR_KW, firstGE, EReal.coe_le_coe_iff]
  · norm_num [recommended_motor, STANDARD_MOTOR_KW, firstGE, EReal.coe_le_coe_iff]

/-- Witness for C5 at a concrete input. -/
theorem motor_selection_witness :
    (40 : ℝ) ≤ 250 ∧ recommended_motor ((40 : ℝ) : EReal) ∈ STANDARD_MOTOR_KW ∧
      (40 : ℝ) ≤ recommended_motor ((40 : ℝ) : EReal) :=
  ⟨by norm_num, ((motor_selection.2.2.1 40).1 (by norm_num)).1,
    ((motor_selection.2.2.1 40).1 (by norm_num)).2.1⟩

/-- C9: two runs of the app pipeline whose inputs differ only in the
discharge pipe diameter produce the same `npsha_m`: NPSHa depends only on
the suction-side geometry and the fluid properties. -/
theorem npsha_independent_of_discharge_dia (i : AppInputs) (d1 d2 : ℝ) :
    (runApp { i with discharge_pipe_dia := d1 }).npsha_m =
      (runApp { i with discharge_pipe_dia := d2 }).npsha_m := rfl

/-- The roughness lookup, with its fallback, is always positive. -/
theorem roughness_pos (mat : String) : 0 < (PIPE_ROUGHNESS mat).getD 4.5e-05 := by
  rw [PIPE_ROUGHNESS]
  split_ifs <;> norm_num

/-- For a Reynolds number of at least 2300, `Re ^ 0.9` is at least 40. -/
theorem rpow_nine_tenths_large (x : ℝ) (hx : (2300 : ℝ) ≤ x) : (40 : ℝ) ≤ x ^ (0.9 : ℝ) := by
  have h0 : (0 : ℝ) ≤ x := by linarith
  have h1 : x ^ ((1 : ℝ) / 2) ≤ x ^ (0.9 : ℝ) :=
    Real.rpow_le_rpow_of_exponent_le (by linarith) (by norm_num)
  have h2 : (40 : ℝ) ≤ Real.sqrt x := by
    have h3 : Real.sqrt 1600 ≤ Real.sqrt x := Real.sqrt_le_sqrt (by linarith)
    have h4 : Real.sqrt 1600 = 40 := by
      rw [show (1600 : ℝ) = 40 ^ 2 by norm_num]
      exact Real.sqrt_sq (by norm_num)
    linarith
  rw [Real.sqrt_eq_rpow] at h2
  linarith

/-- C6 counterexample: `-100 ≤ 0`, yet the velocity primitive applied to a
diameter of `-100` mm (at 3600 m³/hr) returns `Q / (π·d²/4) ≠ 0`, because
the source only guards `pipe_dia_m == 0`, not `≤ 0`. -/
theorem velocity_negative_dia_counterexample :
    (-100 : ℝ) ≤ 0 ∧ (PumpSizer.init 3600 1000 1).calculate_velocity (-100) ≠ 0 := by
  refine ⟨by norm_num, ?_⟩
  have hne : ((-100 : ℝ) / 1000) ≠ 0 := by norm_num
  have hsq : (0 : ℝ) < ((-100 : ℝ) / 1000) ^ 2 := by norm_num
  have harea : (0 : ℝ) < Real.pi * ((-100 : ℝ) / 1000) ^ 2 / 4 :=
    div_pos (mul_pos Real.pi_pos hsq) (by norm_num)
  simp only [PumpSizer.calculate_velocity, PumpSizer.init, if_neg hne]
  exact div_ne_zero (by norm_num) (ne_of_gt harea)

/-- C6 amended: the velocity primitive returns 0 when the diameter is
exactly 0 (a negative diameter instead yields `Q/(π·d²/4)`), and for every
diameter `≤ 0` the pipe head-loss term of `calculate_tdh` is 0, so the
friction head reduces to the fittings loss alone. -/
theorem velocity_zero_dia_amended (ps : PumpSizer) (sd d L : ℝ) (mat : String)
    (fits : List (String × ℝ)) (elev src dst : ℝ) :
    (d = 0 → ps.calculate_velocity d = 0) ∧
      (d ≤ 0 →
        (ps.calculate_tdh sd d L mat fits elev src dst).friction_head_m =
          total_k fits * (ps.calculate_velocity d ^ 2 / (2 * GRAVITY))) := by
  constructor
  · intro h
    simp [PumpSizer.calculate_velocity, h]
  · intro h
    have hnp : ¬ (d / 1000 > 0) := by
      rw [gt_iff_lt, not_lt]
      linarith
    simp only [PumpSizer.calculate_tdh, if_neg hnp, zero_add]

/-- Witness for C6 amended at a concrete input. -/
theorem velocity_zero_dia_amended_witness :
    ((0 : ℝ) = 0 ∧ (PumpSizer.init 50 1000 1).calculate_velocity 0 = 0) ∧
      ((0 : ℝ) ≤ 0 ∧
        ((PumpSizer.init 50 1000 1).calculate_tdh 100 0 120 "pvc" [] 15 0 250).friction_head_m =
          total_k [] * ((PumpSizer.init 50 1000 1).calculate_velocity 0 ^ 2 / (2 * GRAVITY))) :=
  ⟨⟨rfl, (velocity_zero_dia_amended (PumpSizer.init 50 1000 1) 100 0 120 "pvc" [] 15 0
      250).1 rfl⟩,
    ⟨le_refl 0, (velocity_zero_dia_amended (PumpSizer.init 50 1000 1) 100 0 120 "pvc" [] 15 0
      250).2 (le_refl 0)⟩⟩

/-- C4 counterexample: at `Re = 2300`, diameter `0` and material
`commercial_steel`, the code's friction factor is 0 (the `pipe_dia_m == 0`
guard), not the Swamee–Jain expression, which evaluates to a nonzero value
there; so the claim's unguarded "for every diameter" equality fails. -/
theorem friction_factor_counterexample :
    (2300 : ℝ) ≤ 2300 ∧
      PumpSizer.calculate_friction_factor ((2300 : ℝ) : EReal) 0 "commercial_steel" = 0 ∧
      PumpSizer.calculate_friction_factor ((2300 : ℝ) : EReal) 0 "commercial_steel" ≠
        0.25 / (Real.logb 10
          ((PIPE_ROUGHNESS "commercial_steel").getD 4.5e-05 / (3.7 * ((0 : ℝ) / 1000)) +
            5.74 / (2300 : ℝ) ^ (0.9 : ℝ))) ^ 2 := by
  have hzero :
      PumpSizer.calculate_friction_factor ((2300 : ℝ) : EReal) 0 "commercial_steel" = 0 := by
    simp [PumpSizer.calculate_friction_factor, EReal.coe_lt_coe_iff]
  refine ⟨le_refl _, hzero, ?_⟩
  rw [hzero]
  have harg :
      (PIPE_ROUGHNESS "commercial_steel").getD 4.5e-05 / (3.7 * ((0 : ℝ) / 1000)) +
        5.74 / (2300 : ℝ) ^ (0.9 : ℝ) = 5.74 / (2300 : ℝ) ^ (0.9 : ℝ) := by
    norm_num
  rw [harg]
  have hpos : (0 : ℝ) < 5.74 / (2300 : ℝ) ^ (0.9 : ℝ) :=
    div_pos (by norm_num) (Real.rpow_pos_of_pos (by norm_num) _)
  have hlt : 5.74 / (2300 : ℝ) ^ (0.9 : ℝ) < 1 := by
    have h40 := rpow_nine_tenths_large 2300 (le_refl _)
    rw [div_lt_one (by linarith)]
    linarith
  have hlog : Real.logb 10 (5.74 / (2300 : ℝ) ^ (0.9 : ℝ)) < 0 :=
    Real.logb_neg (by norm_num) hpos hlt
  intro hcontra
  have h2 : (0 : ℝ) <
      0.25 / Real.logb 10 (5.74 / (2300 : ℝ) ^ (0.9 : ℝ)) ^ 2 :=
    div_pos (by norm_num) (pow_two_pos_of_ne_zero (ne_of_lt hlog))
  rw [← hcontra] at h2
  exact lt_irrefl 0 h2

/-- C4 amended: the friction factor is `64/Re` (or 0 for `Re ≤ 0`) below
2300 and the Swamee–Jain value at and above 2300 — the branch switching
exactly at `Re = 2300` — provided the source's guard cases (`pipe_dia_m == 0`
and a non-positive log argument, which return 0) are excluded; roughness
falls back to `commercial_steel`'s `4.5e-05` for an unknown material; and
both branches are positive for positive `Re`, positive diameter and a log
argument other than 1. -/
theorem friction_factor_amended (re d : ℝ) (mat : String) :
    (re < 2300 →
      PumpSizer.calculate_friction_factor (re : EReal) d mat =
        if 0 < re then 64 / re else 0) ∧
      (2300 ≤ re → d / 1000 ≠ 0 →
        0 < (PIPE_ROUGHNESS mat).getD 4.5e-05 / (3.7 * (d / 1000)) +
          5.74 / re ^ (0.9 : ℝ) →
        PumpSizer.calculate_friction_factor (re : EReal) d mat =
          0.25 / (Real.logb 10 ((PIPE_ROUGHNESS mat).getD 4.5e-05 / (3.7 * (d / 1000)) +
            5.74 / re ^ (0.9 : ℝ))) ^ 2) ∧
      (mat ∉ ["stainless_steel", "commercial_steel", "pvc", "cast_iron", "hdpe"] →
        (PIPE_ROUGHNESS mat).getD 4.5e-05 = 4.5e-05) ∧
      (0 < re → re < 2300 →
        0 < PumpSizer.calculate_friction_factor (re : EReal) d mat) ∧
      (2300 ≤ re → 0 < d →
        (PIPE_ROUGHNESS mat).getD 4.5e-05 / (3.7 * (d / 1000)) + 5.74 / re ^ (0.9 : ℝ) ≠ 1 →
        0 < PumpSizer.calculate_friction_factor (re : EReal) d mat) := by
  have hlam : re < 2300 →
      PumpSizer.calculate_friction_factor (re : EReal) d mat =
        if 0 < re then 64 / re else 0 := by
    intro h
    simp [PumpSizer.calculate_friction_factor, EReal.coe_lt_coe_iff, EReal.toReal_coe, h]
  have hturb : 2300 ≤ re → d / 1000 ≠ 0 →
      0 < (PIPE_ROUGHNESS mat).getD 4.5e-05 / (3.7 * (d / 1000)) + 5.74 / re ^ (0.9 : ℝ) →
      PumpSizer.calculate_friction_factor (re : EReal) d mat =
        0.25 / (Real.logb 10 ((PIPE_ROUGHNESS mat).getD 4.5e-05 / (3.7 * (d / 1000)) +
          5.74 / re ^ (0.9 : ℝ))) ^ 2 := by
    intro h1 h2 h3
    simp [PumpSizer.calculate_friction_factor, EReal.coe_lt_coe_iff, EReal.coe_ne_top,
      EReal.toReal_coe, not_lt.mpr h1, h2, not_le.mpr h3]
  refine ⟨hlam, hturb, ?_, ?_, ?_⟩
  · intro hmat
    simp only [List.mem_cons, List.not_mem_nil, or_false, not_or] at hmat
    obtain ⟨h1, h2, h3, h4, h5⟩ := hmat
    simp [PIPE_ROUGHNESS, h1, h2, h3, h4, h5]
  · intro h0 hlt
    rw [hlam hlt, if_pos h0]
    positivity
  · intro h1 hd hne
    have hdm : d / 1000 ≠ 0 := ne_of_gt (by positivity)
    have ht1 : 0 < (PIPE_ROUGHNESS mat).getD 4.5e-05 / (3.7 * (d / 1000)) :=
      div_pos (roughness_pos mat) (by positivity)
    have ht2 : 0 < 5.74 / re ^ (0.9 : ℝ) :=
      div_pos (by norm_num) (Real.rpow_pos_of_pos (by linarith) _)
    have harg : 0 < (PIPE_ROUGHNESS mat).getD 4.5e-05 / (3.7 * (d / 1000)) +
        5.74 / re ^ (0.9 : ℝ) := by linarith
    rw [hturb h1 hdm harg]
    have hlog : Real.logb 10 ((PIPE_ROUGHNESS mat).getD 4.5e-05 / (3.7 * (d / 1000)) +
        5.74 / re ^ (0.9 : ℝ)) ≠ 0 := by
      intro h0
      rcases Real.logb_eq_zero.mp h0 with h | h | h | h | h | h
      · norm_num at h
      · norm_num at h
      · norm_num at h
      · exact absurd h (ne_of_gt harg)
      · exact hne h
      · exact absurd h (by linarith)
    exact div_pos (by norm_num) (pow_two_pos_of_ne_zero hlog)

/-- Witness for C4 amended at concrete inputs. -/
theorem friction_factor_amended_witness :
    ((1000 : ℝ) < 2300 ∧
      (PumpSizer.calculate_friction_factor ((1000 : ℝ) : EReal) 75 "pvc" =
        if 0 < (1000 : ℝ) then 64 / 1000 else 0) ∧
      0 < PumpSizer.calculate_friction_factor ((1000 : ℝ) : EReal) 75 "pvc") ∧
      ((2300 : ℝ) ≤ 2400 ∧ (75 : ℝ) / 1000 ≠ 0 ∧ (0 : ℝ) < 75 ∧
        "unknown_material" ∉ ["stainless_steel", "commercial_steel", "pvc", "cast_iron",
          "hdpe"] ∧
        (PIPE_ROUGHNESS "unknown_material").getD 4.5e-05 = 4.5e-05 ∧
        (PIPE_ROUGHNESS "unknown_material").getD 4.5e-05 / (3.7 * ((75 : ℝ) / 1000)) +
            5.74 / (2400 : ℝ) ^ (0.9 : ℝ) ≠ 1 ∧
        0 < PumpSizer.calculate_friction_factor ((2400 : ℝ) : EReal) 75 "unknown_material") := by
  have hmem : "unknown_material" ∉ ["stainless_steel", "commercial_steel", "pvc",
      "cast_iron", "hdpe"] := by
    simp
  have hfall : (PIPE_ROUGHNESS "unknown_material").getD 4.5e-05 = 4.5e-05 :=
    (friction_factor_amended 2400 75 "unknown_material").2.2.1 hmem
  have hne : (PIPE_ROUGHNESS "unknown_material").getD 4.5e-05 / (3.7 * ((75 : ℝ) / 1000)) +
      5.74 / (2400 : ℝ) ^ (0.9 : ℝ) ≠ 1 := by
    rw [hfall]
    have h40 := rpow_nine_tenths_large 2400 (by norm_num)
    have hpow : (0 : ℝ) < (2400 : ℝ) ^ (0.9 : ℝ) := Real.rpow_pos_of_pos (by norm_num) _
    have ht2 : 5.74 / (2400 : ℝ) ^ (0.9 : ℝ) ≤ 5.74 / 40 := by
      rw [div_le_div_iff₀ hpow (by norm_num)]
      nlinarith
    intro hcontra
    have ht1 : (4.5e-05 : ℝ) / (3.7 * ((75 : ℝ) / 1000)) < 0.01 := by norm_num
    have ht3 : (5.74 : ℝ) / 40 ≤ 0.15 := by norm_num
    linarith
  refine ⟨⟨by norm_num, (friction_factor_amended 1000 75 "pvc").1 (by norm_num),
      (friction_factor_amended 1000 75 "pvc").2.2.2.1 (by norm_num) (by norm_num)⟩,
    by norm_num, by norm_num, by norm_num, hmem, hfall, hne,
    (friction_factor_amended 2400 75 "unknown_material").2.2.2.2 (by norm_num) (by norm_num)
      hne⟩

/-- Helper: `total_k` distributes over list append. -/
theorem total_k_append (a b : List (String × ℝ)) :
    total_k (a ++ b) = total_k a + total_k b := by
  simp [total_k]

/-- An entry with non-positive count is skipped by `total_k`. -/
theorem total_k_cons_nonpos (k : String) (c : ℝ) (h : c ≤ 0) (rest : List (String × ℝ)) :
    total_k ((k, c) :: rest) = total_k rest := by
  simp only [total_k, List.map_cons, List.sum_cons, if_neg (not_lt.mpr h), zero_add]

/-- Function `calculate_tdh` depends on the fittings map only through `total_k`. -/
theorem calculate_tdh_fittings_congr (ps : PumpSizer) (sd dd L : ℝ) (mat : String)
    (f1 f2 : List (String × ℝ)) (elev src dst : ℝ) (h : total_k f1 = total_k f2) :
    ps.calculate_tdh sd dd L mat f1 elev src dst =
      ps.calculate_tdh sd dd L mat f2 elev src dst := by
  simp only [PumpSizer.calculate_tdh, h]

/-- Function `calculate_npsha` depends on the fittings map only through `total_k`. -/
theorem calculate_npsha_fittings_congr (ps : PumpSizer) (sd sl : ℝ) (mat : String)
    (f1 f2 : List (String × ℝ)) (lvl pg vp : ℝ) (h : total_k f1 = total_k f2) :
    ps.calculate_npsha sd sl mat f1 lvl pg vp =
      ps.calculate_npsha sd sl mat f2 lvl pg vp := by
  simp only [PumpSizer.calculate_npsha, h]

/-- C10: a fittings entry whose count is `≤ 0` contributes nothing: replacing
its count by zero, or (for a key among the 11 known fitting names) removing
the entry altogether, changes neither `calculate_tdh`'s result nor
`calculate_npsha`'s; negative counts never subtract head loss. -/
theorem fittings_nonpositive_count_ignored (ps : PumpSizer)
    (sd dd L sl lvl pg vp elev src dst : ℝ) (mat : String)
    (pre post : List (String × ℝ)) (k : String) (c : ℝ) (hc : c ≤ 0) :
    (ps.calculate_tdh sd dd L mat (pre ++ (k, c) :: post) elev src dst =
        ps.calculate_tdh sd dd L mat (pre ++ (k, 0) :: post) elev src dst) ∧
      (ps.calculate_npsha sd sl mat (pre ++ (k, c) :: post) lvl pg vp =
        ps.calculate_npsha sd sl mat (pre ++ (k, 0) :: post) lvl pg vp) ∧
      (k ∈ FITTING_NAMES →
        ps.calculate_tdh sd dd L mat (pre ++ (k, c) :: post) elev src dst =
          ps.calculate_tdh sd dd L mat (pre ++ post) elev src dst) ∧
      (k ∈ FITTING_NAMES →
        ps.calculate_npsha sd sl mat (pre ++ (k, c) :: post) lvl pg vp =
          ps.calculate_npsha sd sl mat (pre ++ post) lvl pg vp) := by
  have hdrop : total_k (pre ++ (k, c) :: post) = total_k (pre ++ post) := by
    rw [total_k_append, total_k_append, total_k_cons_nonpos k c hc post]
  have hzero : total_k (pre ++ (k, c) :: post) = total_k (pre ++ (k, 0) :: post) := by
    rw [total_k_append, total_k_append, total_k_cons_nonpos k c hc post,
      total_k_cons_nonpos k 0 (le_refl 0) post]
  exact ⟨calculate_tdh_fittings_congr ps sd dd L mat _ _ elev src dst hzero,
    calculate_npsha_fittings_congr ps sd sl mat _ _ lvl pg vp hzero,
    fun _ => calculate_tdh_fittings_congr ps sd dd L mat _ _ elev src dst hdrop,
    fun _ => calculate_npsha_fittings_congr ps sd sl mat _ _ lvl pg vp hdrop⟩

/-- Witness for C10 at a concrete input. -/
theorem fittings_nonpositive_count_ignored_witness :
    (-2 : ℝ) ≤ 0 ∧ "elbow_90_std" ∈ FITTING_NAMES ∧
      ((PumpSizer.init 50 998.2 1).calculate_tdh 100 75 120 "stainless_steel"
          ([("gate_valve_fully_open", 2)] ++ ("elbow_90_std", -2) :: []) 15 0 250 =
        (PumpSizer.init 50 998.2 1).calculate_tdh 100 75 120 "stainless_steel"
          ([("gate_valve_fully_open", 2)] ++ []) 15 0 250) ∧
      ((PumpSizer.init 50 998.2 1).calculate_npsha 100 10 "stainless_steel"
          ([("gate_valve_fully_open", 2)] ++ ("elbow_90_std", -2) :: []) 2 0 2.3 =
        (PumpSizer.init 50 998.2 1).calculate_npsha 100 10 "stainless_steel"
          ([("gate_valve_fully_open", 2)] ++ []) 2 0 2.3) := by
  have hmem : "elbow_90_std" ∈ FITTING_NAMES := by simp [FITTING_NAMES]
  refine ⟨by norm_num, hmem, ?_, ?_⟩
  · exact (fittings_nonpositive_count_ignored (PumpSizer.init 50 998.2 1) 100 75 120 10 2 0
      2.3 15 0 250 "stainless_steel" [("gate_valve_fully_open", 2)] [] "elbow_90_std" (-2)
      (by norm_num)).2.2.1 hmem
  · exact (fittings_nonpositive_count_ignored (PumpSizer.init 50 998.2 1) 100 75 120 10 2 0
      2.3 15 0 250 "stainless_steel" [("gate_valve_fully_open", 2)] [] "elbow_90_std" (-2)
      (by norm_num)).2.2.2 hmem

/-- Constructor `__init__` always produces a positive density (the source clamps
non-positive densities to 1). -/
theorem init_density_pos (f ρ μ : ℝ) : 0 < (PumpSizer.init f ρ μ).density := by
  simp only [PumpSizer.init]
  split_ifs with h
  · exact h
  · norm_num

/-- The checked velocity agrees with the unchecked one and never raises. -/
theorem velocity_checked_eq (ps : PumpSizer) (d : ℝ) :
    ps.calculate_velocity_checked d = some (ps.calculate_velocity d) := by
  by_cases h : d / 1000 = 0
  · simp [PumpSizer.calculate_velocity_checked, PumpSizer.calculate_velocity, h]
  · have harea : Real.pi * (d / 1000) ^ 2 / 4 ≠ 0 :=
      ne_of_gt (div_pos (mul_pos Real.pi_pos (pow_two_pos_of_ne_zero h)) (by norm_num))
    simp [PumpSizer.calculate_velocity_checked, PumpSizer.calculate_velocity, h, odiv, harea]

/-- The checked Reynolds number agrees with the unchecked one and never
raises. -/
theorem reynolds_checked_eq (ps : PumpSizer) (v d : ℝ) :
    ps.calculate_reynolds_checked v d = some (ps.calculate_reynolds v d) := by
  by_cases h : ps.viscosity_Pa_s = 0
  · simp [PumpSizer.calculate_reynolds_checked, PumpSizer.calculate_reynolds, h]
  · simp [PumpSizer.calculate_reynolds_checked, PumpSizer.calculate_reynolds, h, odiv]

/-- The checked friction factor succeeds whenever the Swamee–Jain logarithm
argument is not exactly 1 (at 1 the source divides `0.25` by `log10(1)² = 0`
and raises `ZeroDivisionError`). -/
theorem friction_factor_checked_isSome (re : EReal) (d : ℝ) (mat : String)
    (hArg : sjArg re d mat ≠ 1) :
    (PumpSizer.calculate_friction_factor_checked re d mat).isSome := by
  by_cases hlt : re < ((2300 : ℝ) : EReal)
  · by_cases hpos : ((0 : ℝ) : EReal) < re
    · have htop : re ≠ ⊤ := by
        intro h
        rw [h] at hlt
        exact absurd hlt not_top_lt
      have hbot : re ≠ ⊥ := by
        intro h
        rw [h] at hpos
        exact absurd hpos (by simp)
      have htr : 0 < re.toReal := by
        have hc := EReal.coe_toReal htop hbot
        rw [← hc] at hpos
        exact EReal.coe_lt_coe_iff.mp hpos
      have hpos' : (0 : EReal) < re := by rwa [EReal.coe_zero] at hpos
      simp [PumpSizer.calculate_friction_factor_checked, hlt, hpos', odiv, ne_of_gt htr]
    · have hpos' : ¬ (0 : EReal) < re := by rwa [EReal.coe_zero] at hpos
      simp [PumpSizer.calculate_friction_factor_checked, hlt, hpos']
  · by_cases hdm : d / 1000 = 0
    · simp [PumpSizer.calculate_friction_factor_checked, hlt, hdm]
    · have h37 : 3.7 * (d / 1000) ≠ 0 := mul_ne_zero (by norm_num) hdm
      by_cases htop : re = ⊤
      · have hArg' : (PIPE_ROUGHNESS mat).getD 4.5e-05 / (3.7 * (d / 1000)) ≠ 1 := by
          simpa [sjArg, htop] using hArg
        by_cases hle : (PIPE_ROUGHNESS mat).getD 4.5e-05 / (3.7 * (d / 1000)) ≤ 0
        · simp [PumpSizer.calculate_friction_factor_checked, hlt, hdm, odiv, h37, htop, hle]
        · have hgt : 0 < (PIPE_ROUGHNESS mat).getD 4.5e-05 / (3.7 * (d / 1000)) :=
            not_le.mp hle
          have hlog : Real.logb 10
              ((PIPE_ROUGHNESS mat).getD 4.5e-05 / (3.7 * (d / 1000))) ≠ 0 := by
            intro h0
            rcases Real.logb_eq_zero.mp h0 with h | h | h | h | h | h
            · norm_num at h
            · norm_num at h
            · norm_num at h
            · exact absurd h (ne_of_gt hgt)
            · exact hArg' h
            · linarith
          simp [PumpSizer.calculate_friction_factor_checked, hlt, hdm, odiv, h37, htop,
            hle, olog10, pow_ne_zero 2 hlog]
          refine ⟨by norm_num, ne_of_gt (roughness_pos mat), hArg', ?_⟩
          intro h
          rw [h] at hgt
          norm_num at hgt
      · have hge : ((2300 : ℝ) : EReal) ≤ re := not_lt.mp hlt
        have htr : (2300 : ℝ) ≤ re.toReal := by
          have h2 := EReal.toReal_le_toReal hge (EReal.coe_ne_bot 2300) htop
          rwa [EReal.toReal_coe] at h2
        have hppos : (0 : ℝ) < re.toReal ^ (0.9 : ℝ) :=
          Real.rpow_pos_of_pos (by linarith) _
        have hnneg : ¬ re.toReal < 0 := not_lt.mpr (by linarith)
        have hArg' : (PIPE_ROUGHNESS mat).getD 4.5e-05 / (3.7 * (d / 1000)) +
            5.74 / re.toReal ^ (0.9 : ℝ) ≠ 1 := by
          simpa [sjArg, htop] using hArg
        by_cases hle : (PIPE_ROUGHNESS mat).getD 4.5e-05 / (3.7 * (d / 1000)) +
            5.74 / re.toReal ^ (0.9 : ℝ) ≤ 0
        · simp [PumpSizer.calculate_friction_factor_checked, hlt, hdm, odiv, h37, htop,
            orpow, hnneg, ne_of_gt hppos, hle]
        · have hgt : 0 < (PIPE_ROUGHNESS mat).getD 4.5e-05 / (3.7 * (d / 1000)) +
              5.74 / re.toReal ^ (0.9 : ℝ) := not_le.mp hle
          have hlog : Real.logb 10
              ((PIPE_ROUGHNESS mat).getD 4.5e-05 / (3.7 * (d / 1000)) +
                5.74 / re.toReal ^ (0.9 : ℝ)) ≠ 0 := by
            intro h0
            rcases Real.logb_eq_zero.mp h0 with h | h | h | h | h | h
            · norm_num at h
            · norm_num at h
            · norm_num at h
            · exact absurd h (ne_of_gt hgt)
            · exact hArg' h
            · linarith
          simp [PumpSizer.calculate_friction_factor_checked, hlt, hdm, odiv, h37, htop,
            orpow, hnneg, ne_of_gt hppos, hle, olog10, pow_ne_zero 2 hlog]
          refine ⟨by norm_num, ne_of_gt hgt, hArg', ?_⟩
          intro h
          rw [h] at hgt
          norm_num at hgt

/-- The checked fittings sum succeeds whenever every entry with positive
count uses a known fitting name. -/
theorem total_k_checked_isSome : ∀ fits : List (String × ℝ),
    (∀ kv ∈ fits, 0 < kv.2 → (FITTINGS_K_VALUES kv.1).isSome) →
    (total_k_checked fits).isSome := by
  intro fits
  induction fits with
  | nil => intro _; rfl
  | cons kv rest ih =>
    intro h
    obtain ⟨k, c⟩ := kv
    have hrest := ih fun kv hkv hpos => h kv (List.mem_cons_of_mem _ hkv) hpos
    by_cases hc : c > 0
    · have hk : (FITTINGS_K_VALUES k).isSome := h (k, c) (List.mem_cons_self _ _) hc
      obtain ⟨K, hK⟩ := Option.isSome_iff_exists.mp hk
      obtain ⟨s, hs⟩ := Option.isSome_iff_exists.mp hrest
      simp [total_k_checked, hc, hK, hs]
    · simpa [total_k_checked, hc] using hrest

/-- The checked power computation never raises: its divisors are either
guarded positive efficiencies or the literal 1000. -/
theorem power_checked_isSome (ps : PumpSizer) (tdh pe me : ℝ) :
    (ps.calculate_power_checked tdh pe me).isSome := by
  by_cases hpe : pe > 0 <;> by_cases hme : me > 0
  · simp [PumpSizer.calculate_power_checked, odiv, divFin, divFinChecked,
      EReal.coe_ne_top, EReal.toReal_coe, hpe, hme, ne_of_gt hpe, ne_of_gt hme]
  · simp [PumpSizer.calculate_power_checked, odiv, divFin, divFinChecked,
      EReal.coe_ne_top, EReal.toReal_coe, hpe, hme, ne_of_gt hpe]
  · simp [PumpSizer.calculate_power_checked, odiv, divFin, divFinChecked,
      EReal.coe_ne_top, EReal.toReal_coe, hpe, hme, ne_of_gt hme]
  · simp [PumpSizer.calculate_power_checked, odiv, divFin, divFinChecked,
      EReal.coe_ne_top, EReal.toReal_coe, hpe, hme]

/-- The checked TDH computation succeeds for every engine built by
`__init__` (positive density), provided the fittings keys with positive
counts are known and the discharge segment's Swamee–Jain argument is not
exactly 1. -/
theorem tdh_checked_isSome (ps : PumpSizer) (hρ : ps.density ≠ 0)
    (sd dd L : ℝ) (mat : String) (fits : List (String × ℝ)) (elev src dst : ℝ)
    (hkeys : ∀ kv ∈ fits, 0 < kv.2 → (FITTINGS_K_VALUES kv.1).isSome)
    (hArg : sjArg (ps.calculate_reynolds (ps.calculate_velocity dd) dd) dd mat ≠ 1) :
    (ps.calculate_tdh_checked sd dd L mat fits elev src dst).isSome := by
  have hg : ps.density * GRAVITY ≠ 0 := mul_ne_zero hρ (by norm_num [GRAVITY])
  obtain ⟨f, hf⟩ := Option.isSome_iff_exists.mp
    (friction_factor_checked_isSome _ dd mat hArg)
  obtain ⟨tk, htk⟩ := Option.isSome_iff_exists.mp (total_k_checked_isSome fits hkeys)
  by_cases hdd : dd / 1000 > 0
  · simp [PumpSizer.calculate_tdh_checked, odiv, hg, velocity_checked_eq,
      reynolds_checked_eq, hf, htk, hdd, ne_of_gt hdd]
  · simp [PumpSizer.calculate_tdh_checked, odiv, hg, velocity_checked_eq,
      reynolds_checked_eq, hf, htk, hdd]

/-- The checked NPSHa computation succeeds under the analogous suction-side
conditions. -/
theorem npsha_checked_isSome (ps : PumpSizer) (hρ : ps.density ≠ 0)
    (sd sl : ℝ) (mat : String) (fits : List (String × ℝ)) (lvl pg vp : ℝ)
    (hkeys : ∀ kv ∈ fits, 0 < kv.2 → (FITTINGS_K_VALUES kv.1).isSome)
    (hArg : sjArg (ps.calculate_reynolds (ps.calculate_velocity sd) sd) sd mat ≠ 1) :
    (ps.calculate_npsha_checked sd sl mat fits lvl pg vp).isSome := by
  have hg : ps.density * GRAVITY ≠ 0 := mul_ne_zero hρ (by norm_num [GRAVITY])
  obtain ⟨f, hf⟩ := Option.isSome_iff_exists.mp
    (friction_factor_checked_isSome _ sd mat hArg)
  obtain ⟨tk, htk⟩ := Option.isSome_iff_exists.mp (total_k_checked_isSome fits hkeys)
  by_cases hsd : sd / 1000 > 0
  · simp [PumpSizer.calculate_npsha_checked, odiv, hg, velocity_checked_eq,
      reynolds_checked_eq, hf, htk, hsd, ne_of_gt hsd]
  · simp [PumpSizer.calculate_npsha_checked, odiv, hg, velocity_checked_eq,
      reynolds_checked_eq, hf, htk, hsd]

/-- C7 counterexample: `calculate_tdh` is not total on every input — a
fittings map carrying an unknown key with positive count makes
`FITTINGS_K_VALUES[key]` raise a `KeyError` (here: `none`). -/
theorem engine_totality_counterexample :
    (PumpSizer.init 0 0 1000).calculate_tdh_checked 0 0 0 "commercial_steel"
      [("bogus_fitting", 1)] 0 0 0 = none := by
  have hbogus : FITTINGS_K_VALUES "bogus_fitting" = none := by
    simp [FITTINGS_K_VALUES]
  have htk : total_k_checked [(("bogus_fitting" : String), (1 : ℝ))] = none := by
    simp [total_k_checked, hbogus]
  norm_num [PumpSizer.calculate_tdh_checked, PumpSizer.init,
    PumpSizer.calculate_velocity_checked, PumpSizer.calculate_reynolds_checked,
    PumpSizer.calculate_friction_factor_checked, htk, odiv, GRAVITY,
    EReal.coe_lt_coe_iff]

/-- C7 amended: every engine operation is exception-free — velocity,
Reynolds, and power unconditionally, the friction factor whenever its
Swamee–Jain logarithm argument is not exactly 1, and the TDH/NPSHa
assemblies whenever additionally every fittings entry with positive count
uses a known fitting name (exactly the two exception paths of the source:
`0.25 / log10(arg)²` at `arg = 1`, and `FITTINGS_K_VALUES[key]` on an
unknown key). -/
theorem engine_totality_amended :
    (∀ (ps : PumpSizer) (d : ℝ), (ps.calculate_velocity_checked d).isSome) ∧
      (∀ (ps : PumpSizer) (v d : ℝ), (ps.calculate_reynolds_checked v d).isSome) ∧
      (∀ (re : EReal) (d : ℝ) (mat : String), sjArg re d mat ≠ 1 →
        (PumpSizer.calculate_friction_factor_checked re d mat).isSome) ∧
      (∀ (ps : PumpSizer) (tdh pe me : ℝ), (ps.calculate_power_checked tdh pe me).isSome) ∧
      (∀ (flow ρ μ sd dd L : ℝ) (mat : String) (fits : List (String × ℝ))
          (elev src dst : ℝ),
        (∀ kv ∈ fits, 0 < kv.2 → (FITTINGS_K_VALUES kv.1).isSome) →
        sjArg ((PumpSizer.init flow ρ μ).calculate_reynolds
            ((PumpSizer.init flow ρ μ).calculate_velocity dd) dd) dd mat ≠ 1 →
        ((PumpSizer.init flow ρ μ).calculate_tdh_checked sd dd L mat fits
            elev src dst).isSome) ∧
      (∀ (flow ρ μ sd sl : ℝ) (mat : String) (fits : List (String × ℝ)) (lvl pg vp : ℝ),
        (∀ kv ∈ fits, 0 < kv.2 → (FITTINGS_K_VALUES kv.1).isSome) →
        sjArg ((PumpSizer.init flow ρ μ).calculate_reynolds
            ((PumpSizer.init flow ρ μ).calculate_velocity sd) sd) sd mat ≠ 1 →
        ((PumpSizer.init flow ρ μ).calculate_npsha_checked sd sl mat fits
            lvl pg vp).isSome) := by
  refine ⟨?_, ?_, ?_, ?_, ?_, ?_⟩
  · intro ps d
    rw [velocity_checked_eq]
    rfl
  · intro ps v d
    rw [reynolds_checked_eq]
    rfl
  · intro re d mat h
    exact friction_factor_checked_isSome re d mat h
  · intro ps tdh pe me
    exact power_checked_isSome ps tdh pe me
  · intro flow ρ μ sd dd L mat fits elev src dst hkeys hArg
    exact tdh_checked_isSome _ (ne_of_gt (init_density_pos flow ρ μ)) sd dd L mat fits
      elev src dst hkeys hArg
  · intro flow ρ μ sd sl mat fits lvl pg vp hkeys hArg
    exact npsha_checked_isSome _ (ne_of_gt (init_density_pos flow ρ μ)) sd sl mat fits
      lvl pg vp hkeys hArg

/-- Witness for C7 amended at concrete inputs. -/
theorem engine_totality_amended_witness :
    ((PumpSizer.init 50 998.2 1).calculate_velocity_checked 75).isSome ∧
      ((PumpSizer.init 50 998.2 1).calculate_reynolds_checked 2 75).isSome ∧
      (sjArg ((0 : ℝ) : EReal) 0 "commercial_steel" ≠ 1 ∧
        (PumpSizer.calculate_friction_factor_checked ((0 : ℝ) : EReal) 0
          "commercial_steel").isSome) ∧
      ((PumpSizer.init 50 998.2 1).calculate_power_checked 30 0.75 0.9).isSome ∧
      ((∀ kv ∈ [(("elbow_90_std" : String), (1 : ℝ))], 0 < kv.2 →
          (FITTINGS_K_VALUES kv.1).isSome) ∧
        sjArg ((PumpSizer.init 0 0 1000).calculate_reynolds
            ((PumpSizer.init 0 0 1000).calculate_velocity 0) 0) 0 "commercial_steel" ≠ 1 ∧
        ((PumpSizer.init 0 0 1000).calculate_tdh_checked 0 0 0 "commercial_steel"
            [("elbow_90_std", 1)] 0 0 0).isSome) ∧
      ((PumpSizer.init 0 0 1000).calculate_npsha_checked 0 0 "commercial_steel"
          [("elbow_90_std", 1)] 0 0 0).isSome := by
  have hks : ∀ kv ∈ [(("elbow_90_std" : String), (1 : ℝ))], 0 < kv.2 →
      (FITTINGS_K_VALUES kv.1).isSome := by
    intro kv hkv _
    simp only [List.mem_singleton] at hkv
    subst hkv
    simp [FITTINGS_K_VALUES]
  have hsj0 : sjArg ((0 : ℝ) : EReal) 0 "commercial_steel" ≠ 1 := by
    norm_num [sjArg, EReal.coe_ne_top, EReal.toReal_coe, Real.zero_rpow]
  have hre : (PumpSizer.init 0 0 1000).calculate_reynolds
      ((PumpSizer.init 0 0 1000).calculate_velocity 0) 0 = ((0 : ℝ) : EReal) := by
    norm_num [PumpSizer.calculate_reynolds, PumpSizer.calculate_velocity, PumpSizer.init]
  have hsj : sjArg ((PumpSizer.init 0 0 1000).calculate_reynolds
      ((PumpSizer.init 0 0 1000).calculate_velocity 0) 0) 0 "commercial_steel" ≠ 1 := by
    rw [hre]
    exact hsj0
  exact ⟨engine_totality_amended.1 _ 75, engine_totality_amended.2.1 _ 2 75,
    ⟨hsj0, engine_totality_amended.2.2.1 _ 0 "commercial_steel" hsj0⟩,
    engine_totality_amended.2.2.2.1 _ 30 0.75 0.9,
    ⟨hks, hsj, engine_totality_amended.2.2.2.2.1 0 0 1000 0 0 0 "commercial_steel"
      [("elbow_90_std", 1)] 0 0 0 hks hsj⟩,
    engine_totality_amended.2.2.2.2.2 0 0 1000 0 0 "commercial_steel"
      [("elbow_90_std", 1)] 0 0 0 hks hsj⟩

end PumpApp

end
